import Mathlib

/-!
Shallow embedding of the `copilot_directline` client and its CLI reconciler
(`src/copilot_directline/models.py`, `src/copilot_directline/directline.py`,
`src/cli/main.py`), together with theorems settling the frozen claims about
the polling / activity-deduplication protocol.

Conventions of the embedding:
* Python dictionaries coming off the wire are modelled as structures of
  `Option` fields (a missing key is `none`).
* `dict.get(k, default)` becomes `Option.getD`.
* Python truthiness of a string is `≠ ""`, of a list is `≠ []`, of an
  `Option` is `isSome`.
* The HTTP layer is modelled as an adversarial backend
  `Nat → Except Unit ActivitiesResponse`: poll number `i` either raises a
  transport error (`.error ()`) or returns a parsed batch.  `time.sleep`
  and the console spinner are not modelled (pure timing / display).
* Console output that represents a *response shown to the user* is
  accumulated in a `surfaced` list; debug-only diagnostics (`if debug:`
  branches in `main.py`) are not part of it.
-/

namespace DirectLine

/-- The `from` field of an activity as received on the wire
(`data.get("from", {})` in `Activity.from_dict`): a dictionary that may or
may not carry `id` and `role` keys. -/
structure FromUser where
  id : Option String
  role : Option String
deriving Repr, DecidableEq

/-- One attachment of an activity; only its `contentType` key is inspected
by the CLI (`main.py` sign-in-card detection). -/
structure Attachment where
  contentType : String
deriving Repr, DecidableEq

/-- `models.Activity` — the parsed activity dataclass. `channel_data` is an
opaque mapping in the source, used only by debug echoes; it is carried
opaquely here. -/
structure Activity where
  id : String
  type : String
  from_user : FromUser
  text : Option String
  channel_data : Option String
  timestamp : Option String
  attachments : Option (List Attachment)
deriving Repr, DecidableEq

/-- The wire form of an activity: every key optional, as in the JSON
dictionary handed to `Activity.from_dict`. -/
structure ActivityWire where
  id : Option String
  type : Option String
  fromUser : Option FromUser
  text : Option String
  channelData : Option String
  timestamp : Option String
  attachments : Option (List Attachment)
deriving Repr, DecidableEq

/-- `models.Activity.from_dict`: every field is read with
`data.get(key, default)`; a missing `id` or `type` defaults to `""`,
a missing `from` to the empty dictionary. -/
def Activity.from_dict (d : ActivityWire) : Activity :=
  { id := d.id.getD ""
    type := d.type.getD ""
    from_user := d.fromUser.getD ⟨none, none⟩
    text := d.text
    channel_data := d.channelData
    timestamp := d.timestamp
    attachments := d.attachments }

/-- `models.Conversation` — the parsed conversation dataclass. -/
structure Conversation where
  conversation_id : String
  token : String
  expires_in : Int
  stream_url : Option String
deriving Repr, DecidableEq

/-- The wire form of a conversation-shaped response
(`/tokens/generate`, `/conversations`, `/tokens/refresh`). -/
structure ConversationWire where
  conversationId : Option String
  token : Option String
  expires_in : Option Int
  streamUrl : Option String
deriving Repr, DecidableEq

/-- `models.Conversation.from_dict`: reads each key with a default
(`""`, `""`, `0`, `None`); it never fails. -/
def Conversation.from_dict (d : ConversationWire) : Conversation :=
  { conversation_id := d.conversationId.getD ""
    token := d.token.getD ""
    expires_in := d.expires_in.getD 0
    stream_url := d.streamUrl }

/-- `models.ActivitiesResponse` — a parsed activity batch plus the
backend-issued watermark cursor. -/
structure ActivitiesResponse where
  activities : List Activity
  watermark : Option String
deriving Repr, DecidableEq

/-- The spec's `ProtocolError` taxonomy entry: a malformed response shape,
carrying the name of the missing required field. -/
inductive ProtocolError where
  | missingField (name : String)
deriving Repr, DecidableEq

/-- Modelled from the spec: §7 claims a parser for conversation-shaped
responses that "fails hard with a `ProtocolError` (missing required
field)"; no such parser exists in `src` (the source `from_dict` defaults).
This definition follows the spec's words: `conversationId` and `token`
are required, the rest keep the source defaults. -/
def Conversation.from_dict_spec (d : ConversationWire) :
    Except ProtocolError Conversation :=
  match d.conversationId with
  | none => .error (.missingField "conversationId")
  | some c =>
    match d.token with
    | none => .error (.missingField "token")
    | some t =>
      .ok { conversation_id := c, token := t,
            expires_in := d.expires_in.getD 0, stream_url := d.streamUrl }

/-- Modelled from the spec: §7's failing parser for activities — the `id`
field is required ("an activity missing its required id field" fails with
`ProtocolError`); no such parser exists in `src`. -/
def Activity.from_dict_spec (d : ActivityWire) :
    Except ProtocolError Activity :=
  match d.id with
  | none => .error (.missingField "id")
  | some i =>
    .ok { id := i, type := d.type.getD "",
          from_user := d.fromUser.getD ⟨none, none⟩,
          text := d.text, channel_data := d.channelData,
          timestamp := d.timestamp, attachments := d.attachments }

/-- Modelled from the spec: §8's round-trip wire format for a
`Conversation` — the four keys `conversationId`, `token`, `expires_in`,
`streamUrl`; no serialiser exists in `src`. -/
def Conversation.to_wire (c : Conversation) : ConversationWire :=
  { conversationId := some c.conversation_id
    token := some c.token
    expires_in := some c.expires_in
    streamUrl := c.stream_url }

/-- The local (pre-network) phase of `DirectLineClient.send_message`: it
builds the URL, the bearer header (`token or self.secret` — Python
truthiness, so an empty token also falls back to the secret) and the
payload `Message(text=message).to_dict()`, and unconditionally issues the
POST.  The `Option` result expresses whether an HTTP request is issued:
the source has no rejection path, so the result is always `some`. -/
structure HttpRequest where
  url : String
  authToken : String
  payloadType : String
  payloadText : String
deriving Repr, DecidableEq

/-- `DirectLineClient.send_message` up to the `requests.post` call. -/
def sendMessageRequest (base_url secret : String) (conversation_id message : String)
    (token : Option String) : Option HttpRequest :=
  some { url := base_url ++ "/conversations/" ++ conversation_id ++ "/activities"
         authToken :=
           match token with
           | some t => if t = "" then secret else t
           | none => secret
         payloadType := "message"
         payloadText := message }

/-! ### Substring search (Python's `needle in haystack`) -/

/-- Does `needle` match at the head of the character list? -/
def charsMatchAtHead : List Char → List Char → Bool
  | [], _ => true
  | _ :: _, [] => false
  | c :: cs, d :: ds => c == d && charsMatchAtHead cs ds

/-- Does `needle` occur as a contiguous run anywhere in the list? -/
def charsContain (needle : List Char) : List Char → Bool
  | [] => needle.isEmpty
  | d :: ds => charsMatchAtHead needle (d :: ds) || charsContain needle ds

/-- Python's `needle in haystack` on strings. -/
def strContainsSub (needle haystack : String) : Bool :=
  charsContain needle.toList haystack.toList

/-! ### Activity classification (`main.py`) -/

/-- `activity.from_user.get("id", "")` (`main.py:161` / `main.py:292`). -/
def Activity.from_id (a : Activity) : String := a.from_user.id.getD ""

/-- `activity.from_user.get("role", "")` (`main.py:162` / `main.py:293`). -/
def Activity.from_role (a : Activity) : String := a.from_user.role.getD ""

/-- `main.py:294-298`, interactive mode: an activity is from the bot iff
`from_role == "bot"`, or `from_id` is present and differs from the
client's own `user_id`, or `from_id` is absent. -/
def is_from_bot (user_id : String) (a : Activity) : Bool :=
  a.from_role == "bot" ||
    (a.from_id != "" && a.from_id != user_id) ||
    a.from_id == ""

/-- Python truthiness of `activity.text` (`if activity.text:`). -/
def textTruthy (a : Activity) : Bool :=
  match a.text with
  | none => false
  | some t => t != ""

/-- `not activity.text or not activity.text.strip()` (`main.py:313`):
the text is absent, empty, or whitespace-only (`strip()` of a
whitespace-only string is empty). -/
def textIsEmpty (a : Activity) : Bool :=
  match a.text with
  | none => true
  | some t => t == "" || t.toList.all (fun c => c.isWhitespace)

/-- Python truthiness of `activity.attachments` (absent or empty list is
falsy). -/
def Activity.hasAttachments (a : Activity) : Bool :=
  match a.attachments with
  | none => false
  | some l => !l.isEmpty

/-- `len(activity.attachments)` with the Python default of 0 when absent. -/
def Activity.attachCount (a : Activity) : Nat :=
  match a.attachments with
  | none => 0
  | some l => l.length

/-- `main.py:360-363`: some attachment's `contentType` contains
`"signin"` or `"oauth"` (case-insensitively). -/
def Activity.hasSigninCard (a : Activity) : Bool :=
  match a.attachments with
  | none => false
  | some l => l.any fun att =>
      strContainsSub "signin" att.contentType.toLower ||
        strContainsSub "oauth" att.contentType.toLower

/-- `main.py:169-176`, single-message mode: `is_bot_message` — a
`message`-typed activity whose `from` marks it as bot (role `"bot"`, a
foreign non-empty id, or no id but truthy text). -/
def isBotMessage (user_id : String) (a : Activity) : Bool :=
  a.type == "message" &&
    (a.from_role == "bot" ||
      (a.from_id != "" && a.from_id != user_id) ||
      (a.from_id == "" && textTruthy a))

/-! ### The interactive-mode reconciler (`main.py:266-399`) -/

/-- One response shown to the user by the interactive loop, tagged with the
id of the activity it came from: a bot text message (`print_message`), a
`[Message with N attachment(s)]` notice, or the text of an `invoke`/`event`
activity. -/
inductive Surface where
  | textMsg (id text : String)
  | attachMsg (id : String) (count : Nat)
  | eventText (id text : String)
deriving Repr, DecidableEq

/-- The activity id a surfaced response came from. -/
def Surface.actId : Surface → String
  | .textMsg i _ => i
  | .attachMsg i _ => i
  | .eventText i _ => i

/-- The per-conversation state owned by the interactive loop:
`seen_activity_ids`, the stored `watermark`, the cumulative
`found_responses` flag, the responses surfaced so far, and the number of
poll attempts made. -/
structure LoopState where
  seen : List String
  watermark : Option String
  foundResponses : Bool
  surfaced : List Surface
  polls : Nat
deriving Repr, DecidableEq

/-- `main.py:360-370`: for a processed (not `continue`d) activity, a
bot-owned attachment whose content type mentions sign-in/OAuth sets
`found_responses` and `new_activities_found` (the echo itself is
debug-only and not a surfaced response). -/
def signinFlags (s : LoopState) (nf : Bool) (bot : Bool) (a : Activity) :
    LoopState × Bool :=
  if a.hasAttachments && bot && a.hasSigninCard then
    ({ s with foundResponses := true }, true)
  else (s, nf)

/-- `main.py:285-373`: process one activity of a poll batch.  The pair
carries the loop state and the per-poll `new_activities_found` flag.
Control flow of the source: skip if already seen; an empty-text bot
message is consumed (surfacing only its attachment notice) and `continue`s
before the sign-in check; otherwise the message / `invoke\x2fevent` branch
surfaces, the sign-in check runs, and the id is marked seen. -/
def processActivity (user_id : String) (sn : LoopState × Bool)
    (a : Activity) : LoopState × Bool :=
  let s := sn.1
  let nf := sn.2
  if s.seen.contains a.id then (s, nf)
  else
    let bot := is_from_bot user_id a
    if a.type == "message" && bot && textIsEmpty a then
      if a.hasAttachments then
        ({ s with surfaced := s.surfaced ++ [.attachMsg a.id a.attachCount],
                  foundResponses := true,
                  seen := a.id :: s.seen }, true)
      else
        ({ s with seen := a.id :: s.seen }, nf)
    else if a.type == "message" && bot then
      let fin := signinFlags
        { s with surfaced := s.surfaced ++ [.textMsg a.id (a.text.getD "")],
                 foundResponses := true } true bot a
      ({ fin.1 with seen := a.id :: fin.1.seen }, fin.2)
    else if (a.type == "invoke" || a.type == "event") && bot && textTruthy a then
      let fin := signinFlags
        { s with surfaced := s.surfaced ++ [.eventText a.id (a.text.getD "")],
                 foundResponses := true } true bot a
      ({ fin.1 with seen := a.id :: fin.1.seen }, fin.2)
    else
      let fin := signinFlags s nf bot a
      ({ fin.1 with seen := a.id :: fin.1.seen }, fin.2)

/-- The activity loop of one poll (`for activity in
activities_response.activities`), with `new_activities_found` reset to
`False` at the start (`main.py:284`). -/
def processBatch (user_id : String) (s : LoopState) (acts : List Activity) :
    LoopState × Bool :=
  acts.foldl (processActivity user_id) (s, false)

/-- The watermark update `if new_watermark: watermark = new_watermark`
(`main.py:155-156`, `244-245`, `376-380`): Python truthiness, so the
stored watermark is replaced only by a non-null, non-empty batch
watermark and kept otherwise. -/
def adoptWatermark (old : Option String) (neww : Option String) : Option String :=
  match neww with
  | some w => if w == "" then old else some w
  | none => old

/-- One iteration of the interactive poll loop (`main.py:266-395`): a
transport error is swallowed; a successful poll processes the batch,
then adopts the batch watermark when truthy (`main.py:376-380`), then
tests the early-termination condition
`found_responses and not new_activities_found and poll_count > 2`.
Returns the new state and whether the loop `break`s. -/
def pollIter (user_id : String) (res : Except Unit ActivitiesResponse)
    (i : Nat) (s : LoopState) : LoopState × Bool :=
  match res with
  | .error _ => ({ s with polls := s.polls + 1 }, false)
  | .ok b =>
    let sb := processBatch user_id { s with polls := s.polls + 1 } b.activities
    let s2 := { sb.1 with watermark := adoptWatermark sb.1.watermark b.watermark }
    (s2, s2.foundResponses && !sb.2 && decide (i > 2))

/-- `for poll_count in range(max_polls)` of the interactive mode, with
`i` the current poll index and the second `Nat` the remaining budget. -/
def runPolls (user_id : String) (backend : Nat → Except Unit ActivitiesResponse) :
    Nat → Nat → LoopState → LoopState
  | _, 0, s => s
  | i, r + 1, s =>
    let step := pollIter user_id (backend i) i s
    if step.2 then step.1 else runPolls user_id backend (i + 1) r step.1

/-- The trace of loop states after each executed poll of `runPolls`
(used to state watermark monotonicity along the whole run). -/
def runPollsTrace (user_id : String) (backend : Nat → Except Unit ActivitiesResponse) :
    Nat → Nat → LoopState → List LoopState
  | _, 0, _ => []
  | i, r + 1, s =>
    let step := pollIter user_id (backend i) i s
    if step.2 then [step.1]
    else step.1 :: runPollsTrace user_id backend (i + 1) r step.1

/-! ### The single-message poll loop (`main.py:141-191`) -/

/-- State of the single-message loop: stored watermark, ids of the bot
messages printed (in print order, duplicates kept — this loop has no
seen-set), and the number of poll attempts. -/
structure SingleState where
  watermark : Option String
  printed : List String
  polls : Nat
deriving Repr, DecidableEq

/-- One iteration of the single-message loop: adopt a truthy batch
watermark (`main.py:155-156`, Python truthiness), print every
`is_bot_message` activity of the batch, and `break` when
`found_any and poll_count > 2` (`main.py:183-184`); a transport error is
swallowed. -/
def singleIter (user_id : String) (res : Except Unit ActivitiesResponse)
    (i : Nat) (s : SingleState) : SingleState × Bool :=
  match res with
  | .error _ => ({ s with polls := s.polls + 1 }, false)
  | .ok b =>
    let botMsgs := b.activities.filter (isBotMessage user_id)
    let s2 : SingleState :=
      { watermark := adoptWatermark s.watermark b.watermark
        printed := s.printed ++ botMsgs.map Activity.id
        polls := s.polls + 1 }
    (s2, !botMsgs.isEmpty && decide (i > 2))

/-- `for poll_count in range(max_polls)` of the single-message mode. -/
def runSingle (user_id : String) (backend : Nat → Except Unit ActivitiesResponse) :
    Nat → Nat → SingleState → SingleState
  | _, 0, s => s
  | i, r + 1, s =>
    let step := singleIter user_id (backend i) i s
    if step.2 then step.1 else runSingle user_id backend (i + 1) r step.1

/-! ### Helper lemmas about one processed activity -/

theorem signinFlags_fst_surfaced (s : LoopState) (nf bot : Bool) (a : Activity) :
    ((signinFlags s nf bot a).1).surfaced = s.surfaced := by
  unfold signinFlags; split <;> rfl

theorem signinFlags_fst_seen (s : LoopState) (nf bot : Bool) (a : Activity) :
    ((signinFlags s nf bot a).1).seen = s.seen := by
  unfold signinFlags; split <;> rfl

theorem signinFlags_fst_watermark (s : LoopState) (nf bot : Bool) (a : Activity) :
    ((signinFlags s nf bot a).1).watermark = s.watermark := by
  unfold signinFlags; split <;> rfl

theorem signinFlags_fst_polls (s : LoopState) (nf bot : Bool) (a : Activity) :
    ((signinFlags s nf bot a).1).polls = s.polls := by
  unfold signinFlags; split <;> rfl

/-- Processing an activity never touches the stored watermark. -/
theorem processActivity_watermark (u : String) (s : LoopState) (nf : Bool) (a : Activity) :
    ((processActivity u (s, nf) a).1).watermark = s.watermark := by
  unfold processActivity
  by_cases c1 : s.seen.contains a.id = true
  · rw [if_pos c1]
  · rw [if_neg c1]
    by_cases c2 : (a.type == "message" && is_from_bot u a && textIsEmpty a) = true
    · rw [if_pos c2]
      by_cases c3 : a.hasAttachments = true
      · rw [if_pos c3]
      · rw [if_neg c3]
    · rw [if_neg c2]
      by_cases c4 : (a.type == "message" && is_from_bot u a) = true
      · rw [if_pos c4]; simp [signinFlags_fst_watermark]
      · rw [if_neg c4]
        by_cases c5 : ((a.type == "invoke" || a.type == "event") && is_from_bot u a && textTruthy a) = true
        · rw [if_pos c5]; simp [signinFlags_fst_watermark]
        · rw [if_neg c5]; simp [signinFlags_fst_watermark]

/-- Processing an activity never touches the poll counter. -/
theorem processActivity_polls (u : String) (s : LoopState) (nf : Bool) (a : Activity) :
    ((processActivity u (s, nf) a).1).polls = s.polls := by
  unfold processActivity
  by_cases c1 : s.seen.contains a.id = true
  · rw [if_pos c1]
  · rw [if_neg c1]
    by_cases c2 : (a.type == "message" && is_from_bot u a && textIsEmpty a) = true
    · rw [if_pos c2]
      by_cases c3 : a.hasAttachments = true
      · rw [if_pos c3]
      · rw [if_neg c3]
    · rw [if_neg c2]
      by_cases c4 : (a.type == "message" && is_from_bot u a) = true
      · rw [if_pos c4]; simp [signinFlags_fst_polls]
      · rw [if_neg c4]
        by_cases c5 : ((a.type == "invoke" || a.type == "event") && is_from_bot u a && textTruthy a) = true
        · rw [if_pos c5]; simp [signinFlags_fst_polls]
        · rw [if_neg c5]; simp [signinFlags_fst_polls]

/-- An activity whose id is already in the seen-set is skipped entirely. -/
theorem processActivity_skip (u : String) (s : LoopState) (nf : Bool) (a : Activity)
    (h : s.seen.contains a.id = true) : processActivity u (s, nf) a = (s, nf) := by
  unfold processActivity
  rw [if_pos h]

/-- The seen-set only grows. -/
theorem processActivity_seen_mono (u : String) (s : LoopState) (nf : Bool) (a : Activity)
    (x : String) (hx : x ∈ s.seen) : x ∈ ((processActivity u (s, nf) a).1).seen := by
  unfold processActivity
  by_cases c1 : s.seen.contains a.id = true
  · rw [if_pos c1]; exact hx
  · rw [if_neg c1]
    by_cases c2 : (a.type == "message" && is_from_bot u a && textIsEmpty a) = true
    · rw [if_pos c2]
      by_cases c3 : a.hasAttachments = true
      · rw [if_pos c3]; exact List.mem_cons_of_mem _ hx
      · rw [if_neg c3]; exact List.mem_cons_of_mem _ hx
    · rw [if_neg c2]
      by_cases c4 : (a.type == "message" && is_from_bot u a) = true
      · rw [if_pos c4]; simp [signinFlags_fst_seen, hx]
      · rw [if_neg c4]
        by_cases c5 : ((a.type == "invoke" || a.type == "event") && is_from_bot u a && textTruthy a) = true
        · rw [if_pos c5]; simp [signinFlags_fst_seen, hx]
        · rw [if_neg c5]; simp [signinFlags_fst_seen, hx]

/-- After processing, the activity's id is in the seen-set (every branch of
the source marks it, and a skipped activity was already there). -/
theorem processActivity_id_seen (u : String) (s : LoopState) (nf : Bool) (a : Activity) :
    a.id ∈ ((processActivity u (s, nf) a).1).seen := by
  unfold processActivity
  by_cases c1 : s.seen.contains a.id = true
  · rw [if_pos c1]; simpa using c1
  · rw [if_neg c1]
    by_cases c2 : (a.type == "message" && is_from_bot u a && textIsEmpty a) = true
    · rw [if_pos c2]
      by_cases c3 : a.hasAttachments = true
      · rw [if_pos c3]; exact List.mem_cons_self _ _
      · rw [if_neg c3]; exact List.mem_cons_self _ _
    · rw [if_neg c2]
      by_cases c4 : (a.type == "message" && is_from_bot u a) = true
      · rw [if_pos c4]; simp [signinFlags_fst_seen]
      · rw [if_neg c4]
        by_cases c5 : ((a.type == "invoke" || a.type == "event") && is_from_bot u a && textTruthy a) = true
        · rw [if_pos c5]; simp [signinFlags_fst_seen]
        · rw [if_neg c5]; simp [signinFlags_fst_seen]

/-- Processing an activity either leaves the surfaced responses unchanged
or appends exactly one response, carrying the activity's id, which was not
yet seen. -/
theorem processActivity_surfaced_cases (u : String) (s : LoopState) (nf : Bool) (a : Activity) :
    ((processActivity u (s, nf) a).1).surfaced = s.surfaced ∨
      (∃ srf : Surface, ((processActivity u (s, nf) a).1).surfaced = s.surfaced ++ [srf] ∧
        srf.actId = a.id ∧ a.id ∉ s.seen) := by
  unfold processActivity
  by_cases c1 : s.seen.contains a.id = true
  · rw [if_pos c1]; left; rfl
  · have hmem : a.id ∉ s.seen := by simpa using c1
    rw [if_neg c1]
    by_cases c2 : (a.type == "message" && is_from_bot u a && textIsEmpty a) = true
    · rw [if_pos c2]
      by_cases c3 : a.hasAttachments = true
      · rw [if_pos c3]
        exact Or.inr ⟨Surface.attachMsg a.id a.attachCount, rfl, rfl, hmem⟩
      · rw [if_neg c3]; left; rfl
    · rw [if_neg c2]
      by_cases c4 : (a.type == "message" && is_from_bot u a) = true
      · rw [if_pos c4]
        exact Or.inr ⟨Surface.textMsg a.id (a.text.getD ""),
          by simp [signinFlags_fst_surfaced], rfl, hmem⟩
      · rw [if_neg c4]
        by_cases c5 : ((a.type == "invoke" || a.type == "event") && is_from_bot u a && textTruthy a) = true
        · rw [if_pos c5]
          exact Or.inr ⟨Surface.eventText a.id (a.text.getD ""),
            by simp [signinFlags_fst_surfaced], rfl, hmem⟩
        · rw [if_neg c5]; left; simp [signinFlags_fst_surfaced]

/-- An activity not classified as from the bot never surfaces anything. -/
theorem processActivity_notBot_surfaced (u : String) (s : LoopState) (nf : Bool) (a : Activity)
    (hbot : is_from_bot u a = false) :
    ((processActivity u (s, nf) a).1).surfaced = s.surfaced := by
  unfold processActivity
  by_cases c1 : s.seen.contains a.id = true
  · rw [if_pos c1]
  · rw [if_neg c1]
    rw [if_neg (by simp [hbot] : ¬(a.type == "message" && is_from_bot u a && textIsEmpty a) = true)]
    rw [if_neg (by simp [hbot] : ¬(a.type == "message" && is_from_bot u a) = true)]
    rw [if_neg (by simp [hbot] : ¬((a.type == "invoke" || a.type == "event") && is_from_bot u a && textTruthy a) = true)]
    simp [signinFlags_fst_surfaced]

/-! ### Helper lemmas about one poll batch -/

theorem foldl_pa_watermark (u : String) (acts : List Activity) :
    ∀ (s : LoopState) (nf : Bool),
      ((acts.foldl (processActivity u) (s, nf)).1).watermark = s.watermark := by
  induction acts with
  | nil => intro s nf; rfl
  | cons a t ih =>
    intro s nf
    simp only [List.foldl_cons]
    rw [show processActivity u (s, nf) a
        = ((processActivity u (s, nf) a).1, (processActivity u (s, nf) a).2) from rfl,
      ih, processActivity_watermark]

theorem foldl_pa_polls (u : String) (acts : List Activity) :
    ∀ (s : LoopState) (nf : Bool),
      ((acts.foldl (processActivity u) (s, nf)).1).polls = s.polls := by
  induction acts with
  | nil => intro s nf; rfl
  | cons a t ih =>
    intro s nf
    simp only [List.foldl_cons]
    rw [show processActivity u (s, nf) a
        = ((processActivity u (s, nf) a).1, (processActivity u (s, nf) a).2) from rfl,
      ih, processActivity_polls]

theorem foldl_pa_seen_mono (u : String) (acts : List Activity) :
    ∀ (s : LoopState) (nf : Bool) (x : String), x ∈ s.seen →
      x ∈ ((acts.foldl (processActivity u) (s, nf)).1).seen := by
  induction acts with
  | nil => intro s nf x hx; exact hx
  | cons a t ih =>
    intro s nf x hx
    simp only [List.foldl_cons]
    rw [show processActivity u (s, nf) a
        = ((processActivity u (s, nf) a).1, (processActivity u (s, nf) a).2) from rfl]
    exact ih _ _ x (processActivity_seen_mono u s nf a x hx)

/-- Any response surfaced during a batch either was already surfaced or
carries an id that was not in the seen-set at the start of the batch. -/
theorem foldl_pa_surfaced_sub (u : String) (acts : List Activity) :
    ∀ (s : LoopState) (nf : Bool) (srf : Surface),
      srf ∈ ((acts.foldl (processActivity u) (s, nf)).1).surfaced →
      srf ∈ s.surfaced ∨ srf.actId ∉ s.seen := by
  induction acts with
  | nil => intro s nf srf h; exact Or.inl h
  | cons a t ih =>
    intro s nf srf h
    simp only [List.foldl_cons] at h
    rw [show processActivity u (s, nf) a
        = ((processActivity u (s, nf) a).1, (processActivity u (s, nf) a).2) from rfl] at h
    rcases ih _ _ srf h with h1 | h2
    · rcases processActivity_surfaced_cases u s nf a with hc | ⟨srf0, heq, hid, hnot⟩
      · rw [hc] at h1; exact Or.inl h1
      · rw [heq] at h1
        rcases List.mem_append.mp h1 with h1a | h1b
        · exact Or.inl h1a
        · right
          have : srf = srf0 := by simpa using h1b
          rw [this, hid]; exact hnot
    · right
      intro hmem
      exact h2 (processActivity_seen_mono u s nf a _ hmem)

/-- The dedup invariant of the interactive loop: surfaced response ids are
pairwise distinct and all recorded in the seen-set. -/
def SurfInv (s : LoopState) : Prop :=
  (s.surfaced.map Surface.actId).Nodup ∧
    ∀ x ∈ s.surfaced.map Surface.actId, x ∈ s.seen

theorem processActivity_inv (u : String) (s : LoopState) (nf : Bool) (a : Activity)
    (h : SurfInv s) : SurfInv (processActivity u (s, nf) a).1 := by
  obtain ⟨hn, hsub⟩ := h
  rcases processActivity_surfaced_cases u s nf a with hc | ⟨srf, heq, hid, hnot⟩
  · constructor
    · rw [hc]; exact hn
    · intro x hx; rw [hc] at hx
      exact processActivity_seen_mono u s nf a x (hsub x hx)
  · constructor
    · rw [heq, List.map_append]
      rw [List.nodup_append]
      refine ⟨hn, List.nodup_singleton _, ?_⟩
      intro x hx hx'
      have hxa : x = a.id := by
        have : x = srf.actId := by simpa using hx'
        rw [this, hid]
      exact hnot (hxa ▸ hsub x hx)
    · intro x hx
      rw [heq, List.map_append] at hx
      rcases List.mem_append.mp hx with hx1 | hx2
      · exact processActivity_seen_mono u s nf a x (hsub x hx1)
      · have : x = a.id := by
          have : x = srf.actId := by simpa using hx2
          rw [this, hid]
        rw [this]; exact processActivity_id_seen u s nf a

theorem foldl_pa_inv (u : String) (acts : List Activity) :
    ∀ (s : LoopState) (nf : Bool), SurfInv s →
      SurfInv (acts.foldl (processActivity u) (s, nf)).1 := by
  induction acts with
  | nil => intro s nf h; exact h
  | cons a t ih =>
    intro s nf h
    simp only [List.foldl_cons]
    rw [show processActivity u (s, nf) a
        = ((processActivity u (s, nf) a).1, (processActivity u (s, nf) a).2) from rfl]
    exact ih _ _ (processActivity_inv u s nf a h)

theorem foldl_pa_notBot_surfaced (u : String) (acts : List Activity) :
    ∀ (s : LoopState) (nf : Bool), (∀ a ∈ acts, is_from_bot u a = false) →
      ((acts.foldl (processActivity u) (s, nf)).1).surfaced = s.surfaced := by
  induction acts with
  | nil => intro s nf _; rfl
  | cons a t ih =>
    intro s nf hall
    simp only [List.foldl_cons]
    rw [show processActivity u (s, nf) a
        = ((processActivity u (s, nf) a).1, (processActivity u (s, nf) a).2) from rfl]
    rw [ih _ _ fun b hb => hall b (List.mem_cons_of_mem a hb)]
    exact processActivity_notBot_surfaced u s nf a (hall a (List.mem_cons_self a t))

/-! ### Helper lemmas about one poll iteration -/

theorem pollIter_error (u : String) (e : Unit) (i : Nat) (s : LoopState) :
    pollIter u (.error e) i s = ({ s with polls := s.polls + 1 }, false) := rfl

theorem adoptWatermark_isSome (old neww : Option String)
    (h : old.isSome = true) : (adoptWatermark old neww).isSome = true := by
  cases neww with
  | none => exact h
  | some w =>
    by_cases hw : (w == "") = true
    · simpa [adoptWatermark, hw] using h
    · simp [adoptWatermark, hw]

theorem pollIter_fst_polls (u : String) (res : Except Unit ActivitiesResponse)
    (i : Nat) (s : LoopState) : (pollIter u res i s).1.polls = s.polls + 1 := by
  cases res with
  | error e => rfl
  | ok b => simp [pollIter, processBatch, foldl_pa_polls]

/-- On a successful poll the new stored watermark is the truthiness
update `adoptWatermark` of the old one by the batch watermark —
independently of the batch's activities and of `new_activities_found`. -/
theorem pollIter_ok_watermark (u : String) (b : ActivitiesResponse) (i : Nat) (s : LoopState) :
    (pollIter u (.ok b) i s).1.watermark = adoptWatermark s.watermark b.watermark := by
  simp only [pollIter, processBatch]
  rw [foldl_pa_watermark]

theorem pollIter_isSome (u : String) (res : Except Unit ActivitiesResponse)
    (i : Nat) (s : LoopState) (h : s.watermark.isSome = true) :
    (pollIter u res i s).1.watermark.isSome = true := by
  cases res with
  | error e => simpa using h
  | ok b =>
    rw [pollIter_ok_watermark]
    exact adoptWatermark_isSome _ _ h

theorem pollIter_seen_mono (u : String) (res : Except Unit ActivitiesResponse)
    (i : Nat) (s : LoopState) (x : String) (hx : x ∈ s.seen) :
    x ∈ (pollIter u res i s).1.seen := by
  cases res with
  | error e => simpa using hx
  | ok b =>
    simp only [pollIter, processBatch]
    exact foldl_pa_seen_mono u b.activities _ _ x hx

theorem pollIter_inv (u : String) (res : Except Unit ActivitiesResponse)
    (i : Nat) (s : LoopState) (h : SurfInv s) : SurfInv (pollIter u res i s).1 := by
  cases res with
  | error e =>
    obtain ⟨h1, h2⟩ := h
    exact ⟨h1, h2⟩
  | ok b =>
    have hb1 : SurfInv (processBatch u { s with polls := s.polls + 1 } b.activities).1 := by
      refine foldl_pa_inv u b.activities _ false ?_
      obtain ⟨h1, h2⟩ := h
      exact ⟨h1, h2⟩
    obtain ⟨h1, h2⟩ := hb1
    simp only [pollIter, processBatch]
    exact ⟨h1, h2⟩

theorem pollIter_surfaced_sub (u : String) (res : Except Unit ActivitiesResponse)
    (i : Nat) (s : LoopState) (srf : Surface)
    (h : srf ∈ (pollIter u res i s).1.surfaced) :
    srf ∈ s.surfaced ∨ srf.actId ∉ s.seen := by
  cases res with
  | error e => exact Or.inl (by simpa using h)
  | ok b =>
    apply foldl_pa_surfaced_sub u b.activities { s with polls := s.polls + 1 } false srf
    simpa only [pollIter, processBatch] using h

theorem pollIter_notBot_surfaced (u : String) (res : Except Unit ActivitiesResponse)
    (i : Nat) (s : LoopState)
    (hres : ∀ b, res = .ok b → ∀ a ∈ b.activities, is_from_bot u a = false) :
    (pollIter u res i s).1.surfaced = s.surfaced := by
  cases res with
  | error e => rfl
  | ok b =>
    have hb0 : (processBatch u { s with polls := s.polls + 1 } b.activities).1.surfaced
        = s.surfaced :=
      foldl_pa_notBot_surfaced u b.activities _ false (hres b rfl)
    simpa only [pollIter, processBatch] using hb0

/-! ### Helper lemmas about the whole interactive loop -/

theorem runPolls_polls_le (u : String) (backend : Nat → Except Unit ActivitiesResponse)
    (r : Nat) : ∀ (i : Nat) (s : LoopState),
      (runPolls u backend i r s).polls ≤ s.polls + r := by
  induction r with
  | zero => intro i s; simp [runPolls]
  | succ r ih =>
    intro i s
    by_cases hbr : (pollIter u (backend i) i s).2 = true
    · simp only [runPolls, hbr, if_true]
      rw [pollIter_fst_polls]
      omega
    · simp only [runPolls, hbr, if_false]
      calc (runPolls u backend (i + 1) r (pollIter u (backend i) i s).1).polls
          ≤ (pollIter u (backend i) i s).1.polls + r := ih (i + 1) _
        _ = s.polls + 1 + r := by rw [pollIter_fst_polls]
        _ ≤ s.polls + (r + 1) := by omega

theorem runPolls_inv (u : String) (backend : Nat → Except Unit ActivitiesResponse)
    (r : Nat) : ∀ (i : Nat) (s : LoopState), SurfInv s →
      SurfInv (runPolls u backend i r s) := by
  induction r with
  | zero => intro i s h; simpa [runPolls] using h
  | succ r ih =>
    intro i s h
    by_cases hbr : (pollIter u (backend i) i s).2 = true
    · simp only [runPolls, hbr, if_true]
      exact pollIter_inv u (backend i) i s h
    · simp only [runPolls, hbr, if_false]
      exact ih (i + 1) _ (pollIter_inv u (backend i) i s h)

theorem runPolls_seen_mono (u : String) (backend : Nat → Except Unit ActivitiesResponse)
    (r : Nat) : ∀ (i : Nat) (s : LoopState) (x : String), x ∈ s.seen →
      x ∈ (runPolls u backend i r s).seen := by
  induction r with
  | zero => intro i s x hx; simpa [runPolls] using hx
  | succ r ih =>
    intro i s x hx
    by_cases hbr : (pollIter u (backend i) i s).2 = true
    · simp only [runPolls, hbr, if_true]
      exact pollIter_seen_mono u (backend i) i s x hx
    · simp only [runPolls, hbr, if_false]
      exact ih (i + 1) _ x (pollIter_seen_mono u (backend i) i s x hx)

theorem runPolls_surfaced_sub (u : String) (backend : Nat → Except Unit ActivitiesResponse)
    (r : Nat) : ∀ (i : Nat) (s : LoopState) (srf : Surface),
      srf ∈ (runPolls u backend i r s).surfaced →
      srf ∈ s.surfaced ∨ srf.actId ∉ s.seen := by
  induction r with
  | zero => intro i s srf h; exact Or.inl (by simpa [runPolls] using h)
  | succ r ih =>
    intro i s srf h
    by_cases hbr : (pollIter u (backend i) i s).2 = true
    · simp only [runPolls, hbr, if_true] at h
      exact pollIter_surfaced_sub u (backend i) i s srf h
    · simp only [runPolls, hbr, if_false] at h
      rcases ih (i + 1) _ srf h with h1 | h2
      · exact pollIter_surfaced_sub u (backend i) i s srf h1
      · right
        intro hmem
        exact h2 (pollIter_seen_mono u (backend i) i s _ hmem)

theorem runPolls_isSome (u : String) (backend : Nat → Except Unit ActivitiesResponse)
    (r : Nat) : ∀ (i : Nat) (s : LoopState), s.watermark.isSome = true →
      (runPolls u backend i r s).watermark.isSome = true := by
  induction r with
  | zero => intro i s h; simpa [runPolls] using h
  | succ r ih =>
    intro i s h
    by_cases hbr : (pollIter u (backend i) i s).2 = true
    · simp only [runPolls, hbr, if_true]
      exact pollIter_isSome u (backend i) i s h
    · simp only [runPolls, hbr, if_false]
      exact ih (i + 1) _ (pollIter_isSome u (backend i) i s h)

/-- A backend that fails every poll never breaks the loop early and never
touches anything but the poll counter. -/
theorem runPolls_allErrors (u : String) (backend : Nat → Except Unit ActivitiesResponse)
    (r : Nat) : ∀ (i : Nat) (s : LoopState), (∀ j, backend j = .error ()) →
      runPolls u backend i r s = { s with polls := s.polls + r } := by
  induction r with
  | zero => intro i s _; simp [runPolls]
  | succ r ih =>
    intro i s hall
    have hstep : pollIter u (backend i) i s = ({ s with polls := s.polls + 1 }, false) := by
      rw [hall i]; rfl
    simp only [runPolls, hstep, if_false, Bool.false_eq_true]
    rw [ih (i + 1) _ hall]
    congr 1
    show s.polls + 1 + r = s.polls + (r + 1)
    omega

/-- If no poll ever returns a bot-classified activity, nothing is surfaced. -/
theorem runPolls_noBot (u : String) (backend : Nat → Except Unit ActivitiesResponse)
    (r : Nat) : ∀ (i : Nat) (s : LoopState),
      (∀ j b, backend j = .ok b → ∀ a ∈ b.activities, is_from_bot u a = false) →
      (runPolls u backend i r s).surfaced = s.surfaced := by
  induction r with
  | zero => intro i s _; simp [runPolls]
  | succ r ih =>
    intro i s hall
    by_cases hbr : (pollIter u (backend i) i s).2 = true
    · simp only [runPolls, hbr, if_true]
      exact pollIter_notBot_surfaced u (backend i) i s (fun b hb => hall i b hb)
    · simp only [runPolls, hbr, Bool.false_eq_true, if_false]
      rw [ih (i + 1) _ hall]
      exact pollIter_notBot_surfaced u (backend i) i s (fun b hb => hall i b hb)

/-! ### Helper lemmas about the single-message loop -/

theorem singleIter_fst_polls (u : String) (res : Except Unit ActivitiesResponse)
    (i : Nat) (s : SingleState) : (singleIter u res i s).1.polls = s.polls + 1 := by
  cases res with
  | error e => rfl
  | ok b => rfl

/-- The single-message loop's watermark update (`main.py:155-156`): adopt
the batch watermark when truthy, keep the old one otherwise. -/
theorem singleIter_ok_watermark (u : String) (b : ActivitiesResponse) (i : Nat)
    (s : SingleState) :
    (singleIter u (.ok b) i s).1.watermark = adoptWatermark s.watermark b.watermark := rfl

theorem runSingle_polls_le (u : String) (backend : Nat → Except Unit ActivitiesResponse)
    (r : Nat) : ∀ (i : Nat) (s : SingleState),
      (runSingle u backend i r s).polls ≤ s.polls + r := by
  induction r with
  | zero => intro i s; simp [runSingle]
  | succ r ih =>
    intro i s
    by_cases hbr : (singleIter u (backend i) i s).2 = true
    · simp only [runSingle, hbr, if_true]
      rw [singleIter_fst_polls]
      omega
    · simp only [runSingle, hbr, Bool.false_eq_true, if_false]
      calc (runSingle u backend (i + 1) r (singleIter u (backend i) i s).1).polls
          ≤ (singleIter u (backend i) i s).1.polls + r := ih (i + 1) _
        _ = s.polls + 1 + r := by rw [singleIter_fst_polls]
        _ ≤ s.polls + (r + 1) := by omega

theorem singleIter_noBot_printed (u : String) (res : Except Unit ActivitiesResponse)
    (i : Nat) (s : SingleState)
    (hres : ∀ b, res = .ok b → ∀ a ∈ b.activities, isBotMessage u a = false) :
    (singleIter u res i s).1.printed = s.printed := by
  cases res with
  | error e => rfl
  | ok b =>
    have hf : b.activities.filter (isBotMessage u) = [] := by
      rw [List.filter_eq_nil_iff]
      intro a ha
      simp [hres b rfl a ha]
    simp [singleIter, hf]

theorem runSingle_noBot (u : String) (backend : Nat → Except Unit ActivitiesResponse)
    (r : Nat) : ∀ (i : Nat) (s : SingleState),
      (∀ j b, backend j = .ok b → ∀ a ∈ b.activities, isBotMessage u a = false) →
      (runSingle u backend i r s).printed = s.printed := by
  induction r with
  | zero => intro i s _; simp [runSingle]
  | succ r ih =>
    intro i s hall
    by_cases hbr : (singleIter u (backend i) i s).2 = true
    · simp only [runSingle, hbr, if_true]
      exact singleIter_noBot_printed u (backend i) i s (fun b hb => hall i b hb)
    · simp only [runSingle, hbr, Bool.false_eq_true, if_false]
      rw [ih (i + 1) _ hall]
      exact singleIter_noBot_printed u (backend i) i s (fun b hb => hall i b hb)

/-! ### Watermark monotonicity machinery (claim C4) -/

/-- Order on stored watermarks induced by an order `le` on backend
cursors: `none` (never set) is below everything, and a set watermark can
never go back to `none`. -/
def wmLe (le : String → String → Prop) : Option String → Option String → Prop
  | none, _ => True
  | some _, none => False
  | some w1, some w2 => le w1 w2

theorem wmLe_refl (le : String → String → Prop) (h : ∀ w, le w w) :
    ∀ o, wmLe le o o := by
  intro o
  cases o with
  | none => trivial
  | some w => exact h w

/-- The backend issued watermark `w` on some poll before index `i`. -/
def issuedBy (backend : Nat → Except Unit ActivitiesResponse) (i : Nat) (w : String) : Prop :=
  ∃ j b, j < i ∧ backend j = .ok b ∧ b.watermark = some w

/-- A stored watermark is accounted for: it is still the initial one, or it
was issued by the backend on an earlier poll. -/
def wmOrigin (backend : Nat → Except Unit ActivitiesResponse) (s0w : Option String)
    (i : Nat) (ow : Option String) : Prop :=
  ow = s0w ∨ ∃ w, ow = some w ∧ issuedBy backend i w

/-- Case analysis of one poll iteration's effect on the stored watermark:
either unchanged (transport error, null watermark, or empty — falsy —
watermark), or set to a watermark the backend issued on this poll. -/
theorem pollIter_watermark_cases (u : String) (backend : Nat → Except Unit ActivitiesResponse)
    (i : Nat) (s : LoopState) :
    (pollIter u (backend i) i s).1.watermark = s.watermark ∨
      ∃ w b, backend i = .ok b ∧ b.watermark = some w ∧
        (pollIter u (backend i) i s).1.watermark = some w := by
  cases hres : backend i with
  | error e => left; rw [pollIter_error]
  | ok b =>
    cases hb : b.watermark with
    | none =>
      left
      rw [pollIter_ok_watermark, hb]
      rfl
    | some w =>
      by_cases hw : (w == "") = true
      · left
        rw [pollIter_ok_watermark, hb]
        simp [adoptWatermark, hw]
      · right
        refine ⟨w, b, rfl, hb, ?_⟩
        rw [pollIter_ok_watermark, hb]
        simp [adoptWatermark, hw]

/-- `runPolls` is the last state of its trace. -/
theorem runPolls_eq_trace (u : String) (backend : Nat → Except Unit ActivitiesResponse) :
    ∀ (r i : Nat) (s : LoopState),
      runPolls u backend i r s = (runPollsTrace u backend i r s).getLastD s := by
  intro r
  induction r with
  | zero => intro i s; rfl
  | succ r ih =>
    intro i s
    by_cases hbr : (pollIter u (backend i) i s).2 = true
    · simp only [runPolls, runPollsTrace, hbr, if_true]
      rfl
    · simp only [runPolls, runPollsTrace, hbr, Bool.false_eq_true, if_false]
      rw [List.getLastD_cons]
      exact ih (i + 1) _

/-- Along the interactive loop's trace the stored watermark is
non-decreasing in the backend's cursor order: each executed poll keeps it
or replaces it with a cursor the backend issued on that very poll, which
by the backend's cursor discipline (`Hup`) dominates the previous one. -/
theorem runPollsTrace_chain (u : String) (backend : Nat → Except Unit ActivitiesResponse)
    (le : String → String → Prop) (s0w : Option String)
    (Hrefl : ∀ w, le w w)
    (Hup : ∀ i b w, backend i = .ok b → b.watermark = some w →
      (∀ w0, s0w = some w0 → le w0 w) ∧
      (∀ j b' w', j < i → backend j = .ok b' → b'.watermark = some w' → le w' w)) :
    ∀ (r i : Nat) (s : LoopState), wmOrigin backend s0w i s.watermark →
      List.Chain' (fun x y => wmLe le x.watermark y.watermark)
        (s :: runPollsTrace u backend i r s) := by
  intro r
  induction r with
  | zero => intro i s _; exact List.chain'_singleton _
  | succ r ih =>
    intro i s hW
    unfold wmOrigin issuedBy at hW
    have hstep := pollIter_watermark_cases u backend i s
    have hRss' : wmLe le s.watermark (pollIter u (backend i) i s).1.watermark := by
      rcases hstep with he | ⟨w, b, hok, hbw, hset⟩
      · rw [he]; exact wmLe_refl le Hrefl _
      · rw [hset]
        cases hsw : s.watermark with
        | none => trivial
        | some w0 =>
          show le w0 w
          rcases hW with h0 | ⟨w1, hw1, j, b', hji, hok', hbw'⟩
          · exact (Hup i b w hok hbw).1 w0 (by rw [← h0, hsw])
          · have hww : w1 = w0 := by
              rw [hsw] at hw1
              exact (Option.some_inj.mp hw1).symm
            exact hww ▸ (Hup i b w hok hbw).2 j b' w1 hji hok' hbw'
    have hW' : wmOrigin backend s0w (i + 1) (pollIter u (backend i) i s).1.watermark := by
      unfold wmOrigin issuedBy
      rcases hstep with he | ⟨w, b, hok, hbw, hset⟩
      · rw [he]
        rcases hW with h0 | ⟨w1, hw1, j, b', hji, hok', hbw'⟩
        · exact Or.inl h0
        · exact Or.inr ⟨w1, hw1, j, b', Nat.lt_succ_of_lt hji, hok', hbw'⟩
      · exact Or.inr ⟨w, hset, i, b, Nat.lt_succ_self i, hok, hbw⟩
    by_cases hbr : (pollIter u (backend i) i s).2 = true
    · simp only [runPollsTrace, hbr, if_true]
      exact List.chain'_cons.mpr ⟨hRss', List.chain'_singleton _⟩
    · simp only [runPollsTrace, hbr, Bool.false_eq_true, if_false]
      exact List.chain'_cons.mpr ⟨hRss', ih (i + 1) _ hW'⟩

/-! ### Claim theorems -/

/-- C9: serialising a `Conversation` to its wire dictionary
(`conversationId`, `token`, `expires_in`, `streamUrl`) and parsing it back
with `Conversation.from_dict` recovers the original value in all four
fields (round-trip identity). -/
theorem C9_conversation_roundtrip (c : Conversation) :
    Conversation.from_dict (Conversation.to_wire c) = c := rfl

/-- C8 counterexample: a conversation-shaped response missing both
required fields `conversationId` and `token`, and an activity missing its
`id`, are parsed by the source `from_dict`s into defaulted values — no
`ProtocolError`, no failure — unlike the spec's failing parser, which
rejects the same input. -/
theorem C8_counterexample :
    Conversation.from_dict ⟨none, none, none, none⟩ =
      { conversation_id := "", token := "", expires_in := 0, stream_url := none } ∧
    Conversation.from_dict_spec ⟨none, none, none, none⟩ =
      .error (.missingField "conversationId") ∧
    Activity.from_dict ⟨none, none, none, none, none, none, none⟩ =
      { id := "", type := "", from_user := ⟨none, none⟩, text := none,
        channel_data := none, timestamp := none, attachments := none } ∧
    Activity.from_dict_spec ⟨none, none, none, none, none, none, none⟩ =
      .error (.missingField "id") :=
  ⟨rfl, rfl, rfl, rfl⟩

/-- C8 amended: parsing a malformed response never fails — missing fields
are silently defaulted (`""` for `conversationId`/`token`/`id`, `0` for
`expires_in`, `none` for `streamUrl`); on well-formed responses carrying
the required fields, the source's defaulting parsers agree with the
spec's failing `ProtocolError` parsers. -/
theorem C8_amended (d : ConversationWire) (w : ActivityWire) (c0 t0 i0 : String)
    (hc : d.conversationId = some c0) (ht : d.token = some t0)
    (hi : w.id = some i0) :
    Conversation.from_dict_spec d = .ok (Conversation.from_dict d) ∧
    Activity.from_dict_spec w = .ok (Activity.from_dict w) := by
  constructor
  · simp [Conversation.from_dict_spec, Conversation.from_dict, hc, ht]
  · simp [Activity.from_dict_spec, Activity.from_dict, hi]

/-- C8 witness: the parsers agree on a concrete well-formed response. -/
theorem C8_amended_witness :
    Conversation.from_dict_spec ⟨some "c1", some "tok", some 1800, none⟩ =
      .ok (Conversation.from_dict ⟨some "c1", some "tok", some 1800, none⟩) ∧
    Activity.from_dict_spec ⟨some "a1", some "message", none, some "hi", none, none, none⟩ =
      .ok (Activity.from_dict ⟨some "a1", some "message", none, some "hi", none, none, none⟩) :=
  C8_amended ⟨some "c1", some "tok", some 1800, none⟩
    ⟨some "a1", some "message", none, some "hi", none, none, none⟩
    "c1" "tok" "a1" rfl rfl rfl

/-- C5 counterexample: `send_message` with empty text still issues an HTTP
POST — the local phase unconditionally produces a request whose payload
text is `""`; there is no rejection before the network call. -/
theorem C5_counterexample :
    (sendMessageRequest "https://directline.botframework.com/v3/directline"
        "secret" "conv1" "" none).isSome = true ∧
    sendMessageRequest "https://directline.botframework.com/v3/directline"
        "secret" "conv1" "" none =
      some { url := "https://directline.botframework.com/v3/directline/conversations/conv1/activities",
             authToken := "secret", payloadType := "message", payloadText := "" } :=
  ⟨rfl, rfl⟩

/-- C5 amended: `send_message` performs no local validation of the message
text: for every conversation id, token and message — the empty string
included — an HTTP POST request is issued whose payload is the
`message`-typed activity carrying that exact text. -/
theorem C5_amended (base secret cid msg : String) (tok : Option String) :
    ∃ r : HttpRequest, sendMessageRequest base secret cid msg tok = some r ∧
      r.payloadText = msg ∧ r.payloadType = "message" :=
  ⟨_, rfl, rfl, rfl⟩

/-- A message activity whose `from.id` is the caller's own id `"u1"` but
whose `from.role` is `"bot"`. -/
def selfIdRoleBotAct : Activity :=
  { id := "a1", type := "message", from_user := ⟨some "u1", some "bot"⟩,
    text := some "hi", channel_data := none, timestamp := none,
    attachments := none }

/-- A message activity whose `from.id` is the caller's own id `"u1"` and
whose `from.role` is `"user"`. -/
def selfIdRoleUserAct : Activity :=
  { id := "a1", type := "message", from_user := ⟨some "u1", some "user"⟩,
    text := some "hi", channel_data := none, timestamp := none,
    attachments := none }

/-- C3 counterexample: an activity whose `from.id` equals the client's own
user id but whose `from.role` is `"bot"` is classified as bot-originated
by both the interactive and the single-message classifier — the role
clause is tested first and overrides the id comparison. -/
theorem C3_counterexample :
    Activity.from_id selfIdRoleBotAct = "u1" ∧
    is_from_bot "u1" selfIdRoleBotAct = true ∧
    isBotMessage "u1" selfIdRoleBotAct = true := by
  refine ⟨rfl, ?_, ?_⟩ <;> decide

/-- C3 amended: an activity whose `from.id` equals the client's (non-empty)
own user id is classified as bot-originated exactly when its `from.role`
is `"bot"` (and, on the single-message path, its type is `"message"`);
with any other role it is never classified as bot-originated. -/
theorem C3_amended (u : String) (a : Activity) (hid : a.from_id = u) (hu : u ≠ "") :
    (is_from_bot u a = true ↔ a.from_role = "bot") ∧
    (isBotMessage u a = true ↔ (a.type = "message" ∧ a.from_role = "bot")) := by
  unfold is_from_bot isBotMessage
  rw [hid]
  simp [hu, textTruthy]

/-- C3 witness: with matching id and role `"user"`, not bot-classified. -/
theorem C3_amended_witness :
    (is_from_bot "u1" selfIdRoleUserAct = true ↔
      Activity.from_role selfIdRoleUserAct = "bot") ∧
    (isBotMessage "u1" selfIdRoleUserAct = true ↔
      (Activity.type selfIdRoleUserAct = "message" ∧
        Activity.from_role selfIdRoleUserAct = "bot")) :=
  C3_amended "u1" selfIdRoleUserAct rfl (by decide)

/-- C6: a bot-classified `message` activity with empty (absent or
whitespace-only) text and no attachments, not yet seen, is consumed by the
interactive reconciler: its id is added to the seen-set, and the state is
otherwise unchanged — in particular nothing is surfaced. -/
theorem C6_empty_bot_message_consumed (u : String) (s : LoopState) (nf : Bool)
    (a : Activity) (htype : a.type = "message") (hbot : is_from_bot u a = true)
    (hempty : textIsEmpty a = true) (hatt : a.hasAttachments = false)
    (hnew : a.id ∉ s.seen) :
    processActivity u (s, nf) a = ({ s with seen := a.id :: s.seen }, nf) := by
  unfold processActivity
  rw [if_neg (by simpa using hnew)]
  rw [if_pos (by simp [htype, hbot, hempty])]
  rw [if_neg (by simp [hatt])]

/-- C10: `Activity.from_dict` defaults a missing `id` to `""`, so every
id-less activity shares the single identity `""`: processing any activity
puts its id in the seen-set; once `""` is seen, an id-less activity is
skipped entirely (never surfaced, state untouched); and over a whole
interactive polling run from a state whose seen-set contains `""`, every
newly surfaced response has a non-empty id. -/
theorem C10_idless_share_identity :
    (∀ w : ActivityWire, w.id = none → (Activity.from_dict w).id = "") ∧
    (∀ (u : String) (s : LoopState) (nf : Bool) (a : Activity),
        a.id ∈ (processActivity u (s, nf) a).1.seen) ∧
    (∀ (u : String) (s : LoopState) (nf : Bool) (a : Activity),
        a.id = "" → "" ∈ s.seen → processActivity u (s, nf) a = (s, nf)) ∧
    (∀ (u : String) (backend : Nat → Except Unit ActivitiesResponse)
        (i r : Nat) (s : LoopState) (srf : Surface), "" ∈ s.seen →
        srf ∈ (runPolls u backend i r s).surfaced →
        srf ∈ s.surfaced ∨ srf.actId ≠ "") := by
  refine ⟨?_, ?_, ?_, ?_⟩
  · intro w hw
    simp [Activity.from_dict, hw]
  · intro u s nf a
    exact processActivity_id_seen u s nf a
  · intro u s nf a hid hseen
    refine processActivity_skip u s nf a ?_
    rw [hid]
    simpa using hseen
  · intro u backend i r s srf hseen hmem
    rcases runPolls_surfaced_sub u backend r i s srf hmem with h1 | h2
    · exact Or.inl h1
    · right
      intro hne
      rw [hne] at h2
      exact h2 hseen

/-- An id-less (defaulted to `""`) bot message activity. -/
def idlessAct : Activity :=
  { id := "", type := "message", from_user := ⟨some "b1", some "bot"⟩,
    text := some "hi", channel_data := none, timestamp := none,
    attachments := none }

/-- C10 witness: a wire activity without `id` parses to id `""`, and an
id-less activity is skipped when `""` is already seen. -/
theorem C10_witness :
    (Activity.from_dict ⟨none, some "message", none, some "hi", none, none, none⟩).id = "" ∧
    processActivity "u1" (⟨[""], none, false, [], 0⟩, false) idlessAct =
      (⟨[""], none, false, [], 0⟩, false) :=
  ⟨C10_idless_share_identity.1 ⟨none, some "message", none, some "hi", none, none, none⟩ rfl,
    C10_idless_share_identity.2.2.1 "u1" ⟨[""], none, false, [], 0⟩ false idlessAct rfl
      (by decide)⟩

/-- C6 witness: a concrete empty bot message is marked seen, not surfaced. -/
theorem C6_witness :
    processActivity "u1" (⟨[], none, false, [], 0⟩, false)
      { id := "e1", type := "message", from_user := ⟨some "b1", some "bot"⟩,
        text := some "  ", channel_data := none, timestamp := none,
        attachments := none } =
    (⟨["e1"], none, false, [], 0⟩, false) :=
  C6_empty_bot_message_consumed "u1" ⟨[], none, false, [], 0⟩ false
    { id := "e1", type := "message", from_user := ⟨some "b1", some "bot"⟩,
      text := some "  ", channel_data := none, timestamp := none,
      attachments := none }
    rfl (by decide) (by decide) rfl (by decide)

/-- The bot's `"Hello!"` reply used in the C2 scenario. -/
def helloAct : Activity :=
  { id := "h1", type := "message", from_user := ⟨some "botid", some "bot"⟩,
    text := some "Hello!", channel_data := none, timestamp := none,
    attachments := none }

/-- The C2 scenario backend: polls 1, 2 and 4 onwards return no new
activities; poll 3 (index 2) returns exactly one bot message `"Hello!"`. -/
def helloBackend : Nat → Except Unit ActivitiesResponse := fun i =>
  if i == 2 then .ok ⟨[helloAct], some "w3"⟩ else .ok ⟨[], none⟩

/-- C2: in the interactive loop with `maxPolls = 10`, when polls 1–2
return nothing new, poll 3 returns one bot message `"Hello!"` and poll 4
nothing new, the loop executes exactly 4 polls (the break fires at
0-indexed `poll_count = 3 > 2` with `found_responses` set and no new
activity) and the surfaced responses are exactly the one `"Hello!"`
message. -/
theorem C2_scenario :
    (runPolls "dl_user" helloBackend 0 10 ⟨[], none, false, [], 0⟩).polls = 4 ∧
    (runPolls "dl_user" helloBackend 0 10 ⟨[], none, false, [], 0⟩).surfaced =
      [Surface.textMsg "h1" "Hello!"] := by
  constructor <;> rfl

/-- The duplicated bot message the C1 counterexample backend returns on
every poll. -/
def dupAct : Activity :=
  { id := "a1", type := "message", from_user := ⟨some "bot1", some "bot"⟩,
    text := some "hi", channel_data := none, timestamp := none,
    attachments := none }

/-- A backend that returns the same batch — the same activity id `"a1"` —
on every poll (overlapping batches). -/
def dupBackend : Nat → Except Unit ActivitiesResponse := fun _ =>
  .ok ⟨[dupAct], some "w1"⟩

/-- C1 counterexample: the single-message polling path has no seen-set;
against a backend returning the same activity id `"a1"` in every batch it
prints the activity on each of the 4 executed polls — the id is surfaced
4 times, not at most once. -/
theorem C1_counterexample :
    (runSingle "dl_user" dupBackend 0 10 ⟨none, [], 0⟩).printed.count "a1" = 4 ∧
    ¬ (runSingle "dl_user" dupBackend 0 10 ⟨none, [], 0⟩).printed.count "a1" ≤ 1 := by
  constructor <;> decide

/-- C1 amended: the interactive polling path deduplicates: starting from a
state with no surfaced responses, after any number of polls against any
backend — overlapping batches and duplicate ids included — the surfaced
response ids are pairwise distinct (each id surfaced at most once).  The
single-message path offers no such guarantee (see the counterexample). -/
theorem C1_amended (u : String) (backend : Nat → Except Unit ActivitiesResponse)
    (i r : Nat) (s : LoopState) (h : s.surfaced = []) :
    ((runPolls u backend i r s).surfaced.map Surface.actId).Nodup := by
  have hinv : SurfInv s := by
    constructor
    · rw [h]; exact List.nodup_nil
    · intro x hx
      rw [h] at hx
      simp at hx
  exact (runPolls_inv u backend r i s hinv).1

/-- C1 witness: against the overlapping-batches backend, the interactive
loop surfaces id `"a1"` exactly once. -/
theorem C1_amended_witness :
    ((runPolls "dl_user" dupBackend 0 10 ⟨[], none, false, [], 0⟩).surfaced.map
      Surface.actId).Nodup :=
  C1_amended "dl_user" dupBackend 0 10 ⟨[], none, false, [], 0⟩ rfl

/-- C7: both poll loops are bounded: for every backend behaviour they
perform at most `maxPolls` poll iterations (both loops are structurally
bounded folds, so they always terminate).  A backend that fails every
poll leaves the loop state untouched apart from the poll counter (empty
result), and a backend that never returns a bot-classified activity
surfaces nothing in either loop (exhausted, empty result). -/
theorem C7_bounded_polls :
    (∀ (u : String) (backend : Nat → Except Unit ActivitiesResponse)
        (i r : Nat) (s : LoopState),
        (runPolls u backend i r s).polls ≤ s.polls + r) ∧
    (∀ (u : String) (backend : Nat → Except Unit ActivitiesResponse)
        (i r : Nat) (s : SingleState),
        (runSingle u backend i r s).polls ≤ s.polls + r) ∧
    (∀ (u : String) (backend : Nat → Except Unit ActivitiesResponse)
        (i r : Nat) (s : LoopState), (∀ j, backend j = .error ()) →
        runPolls u backend i r s = { s with polls := s.polls + r }) ∧
    (∀ (u : String) (backend : Nat → Except Unit ActivitiesResponse)
        (i r : Nat) (s : LoopState),
        (∀ j b, backend j = .ok b → ∀ a ∈ b.activities, is_from_bot u a = false) →
        (runPolls u backend i r s).surfaced = s.surfaced) ∧
    (∀ (u : String) (backend : Nat → Except Unit ActivitiesResponse)
        (i r : Nat) (s : SingleState),
        (∀ j b, backend j = .ok b → ∀ a ∈ b.activities, isBotMessage u a = false) →
        (runSingle u backend i r s).printed = s.printed) := by
  refine ⟨?_, ?_, ?_, ?_, ?_⟩
  · intro u backend i r s
    exact runPolls_polls_le u backend r i s
  · intro u backend i r s
    exact runSingle_polls_le u backend r i s
  · intro u backend i r s h
    exact runPolls_allErrors u backend r i s h
  · intro u backend i r s h
    exact runPolls_noBot u backend r i s h
  · intro u backend i r s h
    exact runSingle_noBot u backend r i s h

/-- An always-failing backend (`TransportError` on every poll). -/
def errBackend : Nat → Except Unit ActivitiesResponse := fun _ => .error ()

/-- C7 witness: against a backend whose every poll raises a transport
error, the interactive loop with `maxPolls = 10` performs exactly 10
polls, surfaces nothing, and terminates; the single-message loop stays
within its budget too. -/
theorem C7_witness :
    (runPolls "dl_user" errBackend 0 10 ⟨[], none, false, [], 0⟩).polls ≤ 0 + 10 ∧
    (runSingle "dl_user" errBackend 0 10 ⟨none, [], 0⟩).polls ≤ 0 + 10 ∧
    runPolls "dl_user" errBackend 0 10 ⟨[], none, false, [], 0⟩ =
      { seen := [], watermark := none, foundResponses := false, surfaced := [],
        polls := 0 + 10 } ∧
    (runPolls "dl_user" errBackend 0 10 ⟨[], none, false, [], 0⟩).surfaced = [] ∧
    (runSingle "dl_user" errBackend 0 10 ⟨none, [], 0⟩).printed = [] :=
  ⟨C7_bounded_polls.1 "dl_user" errBackend 0 10 ⟨[], none, false, [], 0⟩,
    C7_bounded_polls.2.1 "dl_user" errBackend 0 10 ⟨none, [], 0⟩,
    C7_bounded_polls.2.2.1 "dl_user" errBackend 0 10 ⟨[], none, false, [], 0⟩
      (fun _ => rfl),
    C7_bounded_polls.2.2.2.1 "dl_user" errBackend 0 10 ⟨[], none, false, [], 0⟩
      (fun _ _ hb => Except.noConfusion hb),
    C7_bounded_polls.2.2.2.2 "dl_user" errBackend 0 10 ⟨none, [], 0⟩
      (fun _ _ hb => Except.noConfusion hb)⟩

/-- C4 counterexample: the claim says the stored watermark is advanced to
the latest non-null watermark returned by the backend on every poll; but
the source checks Python truthiness (`if activities_response.watermark:`,
`main.py:155-156` and `376-380`), so a returned non-null but *empty*
watermark `""` is not adopted — the stored watermark stays `"w0"` on
both the interactive and the single-message path. -/
theorem C4_counterexample :
    (pollIter "u1" (.ok ⟨[], some ""⟩) 0 ⟨[], some "w0", false, [], 0⟩).1.watermark
      = some "w0" ∧
    (singleIter "u1" (.ok ⟨[], some ""⟩) 0 ⟨some "w0", [], 0⟩).1.watermark
      = some "w0" ∧
    some "w0" ≠ (some "" : Option String) :=
  ⟨rfl, rfl, by decide⟩

/-- C4 amended: the watermark discipline of the poll loops.  (1) On every
successful poll — interactive and single-message alike — the stored
watermark becomes the batch watermark when that is truthy (non-null and
non-empty, Python truthiness) and is kept otherwise, an update visibly
independent of whether new activities were found.  (2) Once set, the
interactive loop's stored watermark is never reset to null.  (3) Along
the whole run, under the backend's cursor discipline (`Hup`: each issued
cursor dominates the initial one and every earlier-issued one), the
stored watermark is non-decreasing in the backend's cursor order `le`. -/
theorem C4_watermark (u : String) (backend : Nat → Except Unit ActivitiesResponse)
    (le : String → String → Prop) (s0 : LoopState) (n : Nat)
    (Hrefl : ∀ w, le w w)
    (Hup : ∀ i b w, backend i = .ok b → b.watermark = some w →
      (∀ w0, s0.watermark = some w0 → le w0 w) ∧
      (∀ j b' w', j < i → backend j = .ok b' → b'.watermark = some w' → le w' w)) :
    (∀ (b : ActivitiesResponse) (i : Nat) (s : LoopState),
        (pollIter u (.ok b) i s).1.watermark =
          (match b.watermark with
            | some w => if w == "" then s.watermark else some w
            | none => s.watermark)) ∧
    (∀ (b : ActivitiesResponse) (i : Nat) (s : SingleState),
        (singleIter u (.ok b) i s).1.watermark =
          (match b.watermark with
            | some w => if w == "" then s.watermark else some w
            | none => s.watermark)) ∧
    (s0.watermark.isSome = true →
      (runPolls u backend 0 n s0).watermark.isSome = true) ∧
    List.Chain' (fun x y => wmLe le x.watermark y.watermark)
      (s0 :: runPollsTrace u backend 0 n s0) := by
  refine ⟨?_, ?_, ?_, ?_⟩
  · intro b i s
    rw [pollIter_ok_watermark]
    cases b.watermark <;> rfl
  · intro b i s
    rw [singleIter_ok_watermark]
    cases b.watermark <;> rfl
  · intro h
    exact runPolls_isSome u backend n 0 s0 h
  · exact runPollsTrace_chain u backend le s0.watermark Hrefl Hup n 0 s0 (Or.inl rfl)

/-- C4 witness: the watermark discipline instantiated at a concrete
backend and the trivially reflexive cursor order. -/
theorem C4_witness :
    (∀ (b : ActivitiesResponse) (i : Nat) (s : LoopState),
        (pollIter "u1" (.ok b) i s).1.watermark =
          (match b.watermark with
            | some w => if w == "" then s.watermark else some w
            | none => s.watermark)) ∧
    (∀ (b : ActivitiesResponse) (i : Nat) (s : SingleState),
        (singleIter "u1" (.ok b) i s).1.watermark =
          (match b.watermark with
            | some w => if w == "" then s.watermark else some w
            | none => s.watermark)) ∧
    ((⟨[], some "w0", false, [], 0⟩ : LoopState).watermark.isSome = true →
      (runPolls "u1" errBackend 0 3 ⟨[], some "w0", false, [], 0⟩).watermark.isSome = true) ∧
    List.Chain' (fun x y => wmLe (fun _ _ => True) x.watermark y.watermark)
      ((⟨[], some "w0", false, [], 0⟩ : LoopState) ::
        runPollsTrace "u1" errBackend 0 3 ⟨[], some "w0", false, [], 0⟩) :=
  C4_watermark "u1" errBackend (fun _ _ => True) ⟨[], some "w0", false, [], 0⟩ 3
    (fun _ => trivial)
    (fun _ _ _ hok _ => Except.noConfusion hok)

end DirectLine
